import Mathlib

/-!
Verification of the batch-orchestration core of the IDesign runner scripts:
`run_multiworker.py` (supervisor) and `run_from_csv.py` (worker).

The Python code is shallowly embedded: pure list manipulations become Lean
functions with the same structure, the worker's retry loop becomes fuel
recursion (the fuel is the loop bound `MAX_RETRIES`), and interactions with
the outside world (stage subprocesses, the filesystem, OS processes) are
parametrised by explicit environments describing what the world does.
-/

namespace IDesign

/-! ## Supervisor: `run_multiworker.py` -/

/-- Loop body of `divide_work` (run_multiworker.py lines 59-65): worker `i`
receives the slice `scene_ids[start : start + size]` with
`size = chunk_size + (1 if i < remainder else 0)`.  The fuel is the number of
remaining loop iterations of `for i in range(num_workers)`. -/
def divideLoop (scene_ids : List Int) (chunk_size remainder : Nat) :
    Nat → Nat → Nat → List (List Int)
  | 0, _, _ => []
  | fuel + 1, i, start =>
      ((scene_ids.drop start).take (chunk_size + if i < remainder then 1 else 0)) ::
        divideLoop scene_ids chunk_size remainder fuel (i + 1)
          (start + (chunk_size + if i < remainder then 1 else 0))

/-- `divide_work` (run_multiworker.py lines 53-67): divide scene IDs among
workers as contiguous ranges, with `chunk_size = n // num_workers` and
`remainder = n % num_workers` distributed over the first workers. -/
def divide_work (scene_ids : List Int) (num_workers : Nat) : List (List Int) :=
  divideLoop scene_ids (scene_ids.length / num_workers) (scene_ids.length % num_workers)
    num_workers 0 0

/-- Total number of items handed to workers `i, i+1, ..., i+fuel-1` by
`divideLoop` (the sum of the per-worker sizes). -/
def sizesFrom (chunk_size remainder : Nat) : Nat → Nat → Nat
  | 0, _ => 0
  | fuel + 1, i => (chunk_size + if i < remainder then 1 else 0) + sizesFrom chunk_size remainder fuel (i + 1)

/-- `get_scene_ids` (run_multiworker.py lines 28-39): the list of catalog IDs,
filtered by the optional inclusive `start_id` and `end_id` bounds, then sorted.
`ids` is the list `[int(row["ID"]) for row in reader]`; Python's stable
`sorted` is modelled by insertion sort, which computes the same ascending
reordering. -/
def get_scene_ids (ids : List Int) (start_id end_id : Option Int) : List Int :=
  let ids1 := match start_id with
    | some s => ids.filter (fun i => s ≤ i)
    | none => ids
  let ids2 := match end_id with
    | some e => ids1.filter (fun i => i ≤ e)
    | none => ids1
  List.insertionSort (· ≤ ·) ids2

/-- `filter_incomplete_scenes` (run_multiworker.py lines 42-50): keep only the
scene IDs whose `render.png` does not exist.  The filesystem is abstracted by
the oracle `renderExists`, true on an ID iff
`results_dir/scene_<id>/render.png` exists. -/
def filter_incomplete_scenes (scene_ids : List Int) (renderExists : Int → Bool) : List Int :=
  scene_ids.filter (fun scene_id => ! renderExists scene_id)

/-- The supervisor's parsed command-line arguments (run_multiworker.py
lines 76-133). -/
structure SupervisorArgs where
  start_id : Option Int
  end_id : Option Int
  skip_existing : Bool
  skip_retrieve : Bool
  skip_render : Bool
  num_workers : Nat
  timeout : Int

/-- The worker's parsed command-line arguments (run_from_csv.py
lines 113-163).  Note: there is no timeout field, because
`run_from_csv.py` defines no `--timeout` option. -/
structure WorkerArgs where
  start_id : Option Int
  end_id : Option Int
  skip_existing : Bool
  skip_retrieve : Bool
  skip_render : Bool

/-- Arguments the supervisor passes to the worker spawned for a (non-empty)
chunk (run_multiworker.py lines 212-225): `--start_id min(chunk)`,
`--end_id max(chunk)`, and the forwarded skip toggles. -/
def worker_args_for_chunk (sup : SupervisorArgs) (chunk : List Int) : WorkerArgs :=
  { start_id := chunk.min?
    end_id := chunk.max?
    skip_existing := sup.skip_existing
    skip_retrieve := sup.skip_retrieve
    skip_render := sup.skip_render }

/-- The option flags appearing on the command line the supervisor builds for a
worker (run_multiworker.py lines 212-225). -/
def worker_cmd_flags (sup : SupervisorArgs) : List String :=
  ["--csv_file", "--results_dir", "--start_id", "--end_id", "--timeout"]
    ++ (if sup.skip_existing then ["--skip_existing"] else [])
    ++ (if sup.skip_retrieve then ["--skip_retrieve"] else [])
    ++ (if sup.skip_render then ["--skip_render"] else [])

/-- The option strings registered on the worker's argument parser
(run_from_csv.py lines 99-163): the `add_argument` calls plus argparse's
automatic help flags; `--auto` uses `BooleanOptionalAction`, which also
registers `--no-auto`. -/
def run_from_csv_option_strings : List String :=
  ["-h", "--help", "--csv_file", "--results_dir", "--start_id", "--end_id",
   "--auto", "--no-auto", "--verbose", "-v",
   "--skip_retrieve", "--skip_render", "--skip_existing"]

/-- Argparse accepts a command line only when every option flag on it is a
registered option string; otherwise `parse_args` errors out (exiting the
process with code 2). -/
def argparse_accepts (known : List String) (flags : List String) : Bool :=
  flags.all (fun f => known.contains f)

/-- The supervisor's `main` falls off the end of the summary block
(run_multiworker.py lines 282-293) without calling `sys.exit`, whatever the
worker returncodes were, so the interpreter exits with code 0.  The argument
is the list of worker returncodes observed by the monitor. -/
def multiworker_exit_code (_workerReturncodes : List Int) : Nat :=
  0

/-- Status word printed for one worker in the supervisor's final summary
(run_multiworker.py lines 287-290). -/
def worker_status_word (ret : Int) : String :=
  if ret = 0 then ("SUCCESS") else ("FAILED")

/-! ### Cancellation handler (run_multiworker.py lines 269-276)

OS processes are modelled by a three-state abstraction; `terminate` is
`proc.terminate()` (delivery of SIGTERM to a live process) and `wait` is
`proc.wait()`, whose contract is to block until the child has exited and been
reaped — so a process on which `wait` has returned is exited. -/

inductive ProcState where
  | running
  | terminating
  | exited
deriving DecidableEq

/-- Effect of `proc.terminate()` on a process. -/
def terminateProc : ProcState → ProcState
  | ProcState.running => ProcState.terminating
  | s => s

/-- Effect of `proc.wait()`: it returns only once the process has exited. -/
def waitProc : ProcState → ProcState
  | _ => ProcState.exited

/-- Observable actions of the `KeyboardInterrupt` handler. -/
inductive SupAction where
  | sentTerminate (workerIdx : Nat)
  | waited (workerIdx : Nat)
deriving DecidableEq

/-- The `KeyboardInterrupt` handler (run_multiworker.py lines 269-276): one
loop calls `proc.terminate()` on every spawned worker, then a second loop
calls `proc.wait()` on every spawned worker.  Returns the action trace and the
resulting process states. -/
def interrupt_handler (procs : List ProcState) : List SupAction × List ProcState :=
  ((List.range procs.length).map SupAction.sentTerminate
      ++ (List.range procs.length).map SupAction.waited,
    (procs.map terminateProc).map waitProc)

/-! ## Worker: `run_from_csv.py` -/

/-- `MAX_RETRIES` (run_from_csv.py line 27). -/
def MAX_RETRIES : Nat := 10

/-- One catalog record as read by `csv.DictReader`.  The `ID` field is kept as
the result of Python's `int(row["ID"])`: `some v` when the text parses to the
integer `v`, `none` when `int` raises `ValueError` (the textual parse itself
is a Python builtin, external to the orchestration code). -/
structure Row where
  ID : Option Int
  Description : String
deriving DecidableEq

/-- What the external world does during one attempt on one item: whether
`generate_scene` returns without raising, whether the retrieval subprocess
and the Blender subprocess exit with status 0 (including the script-exists
preflight checks of `run_retrieve` / `run_blender`), and whether
`render.png` exists after the Blender invocation. -/
structure AttemptEnv where
  genOk : Bool
  retrieveOk : Bool
  blenderOk : Bool
  renderExists : Bool
deriving DecidableEq

/-- Names of the three pipeline stages a worker can invoke. -/
inductive StageName where
  | generate
  | retrieve
  | render
deriving DecidableEq

/-- The exceptions that can abort one attempt (run_from_csv.py
lines 227-251): `generate_scene` raising, `RuntimeError("Asset retrieval
failed")`, `RuntimeError("Blender rendering failed")`, and
`RuntimeError("render.png not found after Blender execution")`. -/
inductive AttemptFailure where
  | genError
  | retrieveFailed
  | blenderFailed
  | missingArtifact
deriving DecidableEq

/-- Stage 3 of an attempt (run_from_csv.py lines 244-253): when
`skip_render` is false, run Blender, fail if it fails, then fail with the
missing-artifact error if `render.png` still does not exist; when
`skip_render` is true, do nothing.  `t` is the trace of stages already
invoked in this attempt. -/
def renderStage (args : WorkerArgs) (env : AttemptEnv) (t : List StageName) :
    List StageName × Option AttemptFailure :=
  if args.skip_render then (t, none)
  else if ! env.blenderOk then (t ++ [StageName.render], some AttemptFailure.blenderFailed)
  else if ! env.renderExists then (t ++ [StageName.render], some AttemptFailure.missingArtifact)
  else (t ++ [StageName.render], none)

/-- One full attempt: the body of the `try` block (run_from_csv.py
lines 223-253).  Stage 1 (`generate_scene`) always runs; stage 2 runs unless
`skip_retrieve`; stage 3 as in `renderStage`.  Returns the list of stages
invoked and `none` on success or the first failure raised. -/
def runAttemptFull (args : WorkerArgs) (env : AttemptEnv) :
    List StageName × Option AttemptFailure :=
  if ! env.genOk then ([StageName.generate], some AttemptFailure.genError)
  else if args.skip_retrieve then
    renderStage args env [StageName.generate]
  else if ! env.retrieveOk then
    ([StageName.generate, StageName.retrieve], some AttemptFailure.retrieveFailed)
  else
    renderStage args env [StageName.generate, StageName.retrieve]

/-- Outcome of one attempt: `none` = the attempt succeeded. -/
def runAttempt (args : WorkerArgs) (env : AttemptEnv) : Option AttemptFailure :=
  (runAttemptFull args env).2

/-- Terminal state of one item together with the number of attempts that were
executed for it. -/
inductive ItemResult where
  | success (attempts : Nat)
  | permanentFailure (attempts : Nat)
deriving DecidableEq

/-- The retry loop `for attempt in range(1, MAX_RETRIES + 1)` (run_from_csv.py
lines 222-266), started at attempt number `attempt` with `fuel` iterations
left: a successful attempt breaks out with `success`; a failed attempt
continues with the next attempt number; running out of iterations leaves the
item failed after `attempt - 1` executed attempts.  `envs k` is what the
world does on attempt `k`. -/
def processFrom (args : WorkerArgs) (envs : Nat → AttemptEnv) : Nat → Nat → ItemResult
  | 0, attempt => ItemResult.permanentFailure (attempt - 1)
  | fuel + 1, attempt =>
    match runAttempt args (envs attempt) with
    | none => ItemResult.success attempt
    | some _ => processFrom args envs fuel (attempt + 1)

/-- The whole per-item retry loop: attempts start at 1 and at most
`MAX_RETRIES` are executed. -/
def processItem (args : WorkerArgs) (envs : Nat → AttemptEnv) : ItemResult :=
  processFrom args envs MAX_RETRIES 1

/-- Trace of stage invocations made by the retry loop from attempt `attempt`
with `fuel` iterations left. -/
def processTraceFrom (args : WorkerArgs) (envs : Nat → AttemptEnv) : Nat → Nat → List StageName
  | 0, _ => []
  | fuel + 1, attempt =>
    match runAttemptFull args (envs attempt) with
    | (t, none) => t
    | (t, some _) => t ++ processTraceFrom args envs fuel (attempt + 1)

/-- Trace of stage invocations made for one item over its whole retry loop. -/
def itemTrace (args : WorkerArgs) (envs : Nat → AttemptEnv) : List StageName :=
  processTraceFrom args envs MAX_RETRIES 1

/-- The first range check of the row loop (run_from_csv.py lines 198-200):
skip the row when a start bound is given and the ID is below it. -/
def startSkip (args : WorkerArgs) (pid : Int) : Bool :=
  match args.start_id with
  | some s => pid < s
  | none => false

/-- The second range check of the row loop (run_from_csv.py lines 201-203):
skip the row when an end bound is given and the ID is above it. -/
def endSkip (args : WorkerArgs) (pid : Int) : Bool :=
  match args.end_id with
  | some e => e < pid
  | none => false

/-- A row passes the worker's ID-range filter when neither range check
skips it. -/
def keepsRange (args : WorkerArgs) (pid : Int) : Bool :=
  ! startSkip args pid && ! endSkip args pid

/-- The set (as an ordered list) of catalog IDs the worker spawned for
`chunk` selects with its own ID-range filter. -/
def worker_range_selected (sup : SupervisorArgs) (chunk : List Int) (catalogIds : List Int) :
    List Int :=
  catalogIds.filter (keepsRange (worker_args_for_chunk sup chunk))

/-- The worker's per-run tally (run_from_csv.py lines 190-192). -/
structure Summary where
  successful : Nat
  failed : Nat
  skipped : Nat
deriving DecidableEq

/-- The worker's row loop (run_from_csv.py lines 194-266).  For each row:
`int(row["ID"])` — a `ValueError` here is raised outside any `try` block and
crashes the worker (modelled as `Except.error`); then the two range checks,
then the skip-existing check, each incrementing `skipped`; otherwise the item
runs through the retry loop, incrementing `successful` or `failed`.
`renderExists` is the filesystem oracle for `render.png`, `envOf pid k` what
the world does on attempt `k` of the item with ID `pid`. -/
def workerLoop (args : WorkerArgs) (renderExists : Int → Bool)
    (envOf : Int → Nat → AttemptEnv) : List Row → Summary → Except String Summary
  | [], acc => Except.ok acc
  | row :: rest, acc =>
    match row.ID with
    | none => Except.error ("ValueError: invalid literal for int() in row ID")
    | some pid =>
      if startSkip args pid then
        workerLoop args renderExists envOf rest { acc with skipped := acc.skipped + 1 }
      else if endSkip args pid then
        workerLoop args renderExists envOf rest { acc with skipped := acc.skipped + 1 }
      else if args.skip_existing && renderExists pid then
        workerLoop args renderExists envOf rest { acc with skipped := acc.skipped + 1 }
      else
        match processItem args (envOf pid) with
        | ItemResult.success _ =>
          workerLoop args renderExists envOf rest { acc with successful := acc.successful + 1 }
        | ItemResult.permanentFailure _ =>
          workerLoop args renderExists envOf rest { acc with failed := acc.failed + 1 }

/-- A full worker run over the catalog rows, starting from the zeroed tally
(run_from_csv.py lines 190-266). -/
def run_from_csv_main (args : WorkerArgs) (renderExists : Int → Bool)
    (envOf : Int → Nat → AttemptEnv) (rows : List Row) : Except String Summary :=
  workerLoop args renderExists envOf rows { successful := 0, failed := 0, skipped := 0 }

/-- Exit code of the worker process: `main` returning normally exits the
interpreter with 0; an uncaught exception terminates it with a nonzero
code (CPython uses 1 for uncaught exceptions). -/
def worker_exit_code : Except String Summary → Nat
  | Except.ok _ => 0
  | Except.error _ => 1

/-- Stage invocations made by the worker for a single row (the part of the
row-loop body that can invoke stages; every skip path and the crash path
invoke none). -/
def rowTrace (args : WorkerArgs) (renderExists : Int → Bool)
    (envOf : Int → Nat → AttemptEnv) (row : Row) : List StageName :=
  match row.ID with
  | none => []
  | some pid =>
    if startSkip args pid then []
    else if endSkip args pid then []
    else if args.skip_existing && renderExists pid then []
    else itemTrace args (envOf pid)

/-! ## Lemmas about `divide_work` -/

theorem divideLoop_length (l : List Int) (cs rem : Nat) :
    ∀ fuel i start, (divideLoop l cs rem fuel i start).length = fuel
  | 0, _, _ => rfl
  | fuel + 1, i, start => by
      simp [divideLoop, divideLoop_length l cs rem fuel]

theorem divideLoop_flatten (l : List Int) (cs rem : Nat) :
    ∀ fuel i start, (divideLoop l cs rem fuel i start).flatten
      = (l.drop start).take (sizesFrom cs rem fuel i)
  | 0, _, _ => by simp [divideLoop, sizesFrom]
  | fuel + 1, i, start => by
      rw [divideLoop, List.flatten_cons, divideLoop_flatten l cs rem fuel, sizesFrom]
      have hsplit := List.take_add (l.drop start) (cs + if i < rem then 1 else 0)
        (sizesFrom cs rem fuel (i + 1))
      rw [hsplit]
      congr 1
      rw [List.drop_drop]

theorem sizesFrom_eq (cs rem : Nat) :
    ∀ fuel i, sizesFrom cs rem fuel i = cs * fuel + (min rem (i + fuel) - min rem i)
  | 0, i => by simp [sizesFrom]
  | fuel + 1, i => by
      rw [sizesFrom, sizesFrom_eq cs rem fuel (i + 1), Nat.mul_succ]
      by_cases h : i < rem <;> simp [h] <;> omega

theorem divide_work_length (l : List Int) (w : Nat) : (divide_work l w).length = w :=
  divideLoop_length l _ _ w 0 0

theorem sizesFrom_total (l : List Int) (w : Nat) (hw : 1 ≤ w) :
    sizesFrom (l.length / w) (l.length % w) w 0 = l.length := by
  rw [sizesFrom_eq]
  have h1 : l.length % w < w := Nat.mod_lt _ (by omega)
  have h2 := Nat.div_add_mod l.length w
  have h3 : l.length / w * w = w * (l.length / w) := Nat.mul_comm _ _
  omega

theorem divide_work_flatten (l : List Int) (w : Nat) (hw : 1 ≤ w) :
    (divide_work l w).flatten = l := by
  rw [divide_work, divideLoop_flatten, sizesFrom_total l w hw]
  simp

theorem divideLoop_getElemOpt (l : List Int) (cs rem : Nat) :
    ∀ fuel i start j, j < fuel →
      (divideLoop l cs rem fuel i start)[j]?
        = some ((l.drop (start + sizesFrom cs rem j i)).take
            (cs + if i + j < rem then 1 else 0))
  | 0, i, start, j, h => absurd h (Nat.not_lt_zero j)
  | fuel + 1, i, start, 0, h => by
      simp [divideLoop, sizesFrom]
  | fuel + 1, i, start, j + 1, h => by
      rw [divideLoop, List.getElem?_cons_succ,
        divideLoop_getElemOpt l cs rem fuel (i + 1) _ j (by omega)]
      have h1 : i + 1 + j = i + (j + 1) := by omega
      rw [h1, sizesFrom]
      have h2 : start + (cs + if i < rem then 1 else 0) + sizesFrom cs rem j (i + 1)
          = start + ((cs + if i < rem then 1 else 0) + sizesFrom cs rem j (i + 1)) := by omega
      rw [h2]

theorem divide_work_getElem (l : List Int) (w : Nat) :
    ∀ j (h : j < (divide_work l w).length),
      (divide_work l w)[j]
        = (l.drop (sizesFrom (l.length / w) (l.length % w) j 0)).take
            (l.length / w + if j < l.length % w then 1 else 0) := by
  intro j h
  have hj : j < w := by rw [divide_work_length] at h; exact h
  have hopt : (divide_work l w)[j]?
      = some ((l.drop (0 + sizesFrom (l.length / w) (l.length % w) j 0)).take
          (l.length / w + if 0 + j < l.length % w then 1 else 0)) := by
    rw [divide_work]
    exact divideLoop_getElemOpt l (l.length / w) (l.length % w) w 0 0 j hj
  rw [List.getElem?_eq_getElem h] at hopt
  have := Option.some.inj hopt
  simpa using this

theorem divide_work_getElem_length (l : List Int) (w : Nat) (hw : 1 ≤ w) :
    ∀ j (h : j < (divide_work l w).length),
      ((divide_work l w)[j]).length = l.length / w + if j < l.length % w then 1 else 0 := by
  intro j h
  have hj : j < w := by rw [divide_work_length] at h; exact h
  rw [divide_work_getElem l w j h, List.length_take, List.length_drop]
  have hmod : l.length % w < w := Nat.mod_lt _ (by omega)
  have htot := Nat.div_add_mod l.length w
  have hmul1 : l.length / w * j + l.length / w = l.length / w * (j + 1) := by
    rw [Nat.mul_succ]
  have hmul2 : l.length / w * (j + 1) ≤ l.length / w * w :=
    Nat.mul_le_mul_left _ (by omega)
  have hmul3 : l.length / w * w = w * (l.length / w) := Nat.mul_comm _ _
  rw [sizesFrom_eq]
  by_cases hc : j < l.length % w <;> (simp [hc]; omega)

/-- C1: for every item list and every `workerCount >= 1`, `divide_work`
returns exactly `workerCount` lists whose concatenation equals the input list
in order; with `base = n / workerCount` and `rem = n % workerCount`, the
`i`-th partition has `base + 1` items when `i < rem` and `base` items
otherwise, so sizes differ by at most 1; and the empty input yields
`workerCount` empty partitions.  (Determinism is immediate: `divide_work` is
a function of its two arguments.) -/
theorem claim1_divide_work_partition (l : List Int) (w : Nat) (hw : 1 ≤ w) :
    (divide_work l w).length = w ∧
    (divide_work l w).flatten = l ∧
    (divide_work l w).map List.length
      = (List.range w).map (fun i => l.length / w + if i < l.length % w then 1 else 0) ∧
    (∀ a ∈ (divide_work l w).map List.length,
      ∀ b ∈ (divide_work l w).map List.length, a ≤ b + 1) ∧
    (l = [] → divide_work l w = List.replicate w []) := by
  have hlen := divide_work_length l w
  have hmap : (divide_work l w).map List.length
      = (List.range w).map (fun i => l.length / w + if i < l.length % w then 1 else 0) := by
    apply List.ext_getElem
    · simp [hlen]
    · intro n h1 h2
      have hn : n < (divide_work l w).length := by simpa [hlen] using h1
      rw [List.getElem_map, List.getElem_map, List.getElem_range,
        divide_work_getElem_length l w hw n hn]
  refine ⟨hlen, divide_work_flatten l w hw, hmap, ?_, ?_⟩
  · intro a ha b hb
    rw [hmap] at ha hb
    obtain ⟨i, hi, rfl⟩ := List.mem_map.mp ha
    obtain ⟨j, hj, rfl⟩ := List.mem_map.mp hb
    split_ifs <;> omega
  · intro hnil
    apply List.ext_getElem
    · simp [hlen]
    · intro n h1 h2
      have hn : n < (divide_work l w).length := h1
      rw [divide_work_getElem l w n hn, List.getElem_replicate, hnil]
      simp

/-- Witness for C1: ten items over three workers give the partitions
`[0..3], [4..6], [7..9]` with sizes `4, 3, 3` in worker order. -/
theorem claim1_witness :
    (divide_work [0, 1, 2, 3, 4, 5, 6, 7, 8, 9] 3).length = 3 ∧
    (divide_work [0, 1, 2, 3, 4, 5, 6, 7, 8, 9] 3).flatten = [0, 1, 2, 3, 4, 5, 6, 7, 8, 9] ∧
    (divide_work [0, 1, 2, 3, 4, 5, 6, 7, 8, 9] 3).map List.length
      = (List.range 3).map (fun i => 10 / 3 + if i < 10 % 3 then 1 else 0) ∧
    (∀ a ∈ (divide_work [0, 1, 2, 3, 4, 5, 6, 7, 8, 9] 3).map List.length,
      ∀ b ∈ (divide_work [0, 1, 2, 3, 4, 5, 6, 7, 8, 9] 3).map List.length, a ≤ b + 1) ∧
    (([0, 1, 2, 3, 4, 5, 6, 7, 8, 9] : List Int) = [] →
      divide_work [0, 1, 2, 3, 4, 5, 6, 7, 8, 9] 3 = List.replicate 3 []) := by
  have h := claim1_divide_work_partition [0, 1, 2, 3, 4, 5, 6, 7, 8, 9] 3 (by decide)
  simpa using h

/-! ## Lemmas about the per-item retry loop -/

theorem processFrom_success (args : WorkerArgs) (envs : Nat → AttemptEnv) (k : Nat) :
    ∀ fuel a, a ≤ k → k < a + fuel →
      (∀ j, a ≤ j → j < k → (runAttempt args (envs j)).isSome) →
      runAttempt args (envs k) = none →
      processFrom args envs fuel a = ItemResult.success k
  | 0, a, hak, hk, _, _ => absurd hk (by omega)
  | fuel + 1, a, hak, hk, hfail, hsucc => by
      rcases Nat.eq_or_lt_of_le hak with heq | hlt
      · subst heq
        rw [processFrom, hsucc]
      · have hfa := hfail a (Nat.le_refl a) hlt
        rw [processFrom]
        cases hra : runAttempt args (envs a) with
        | none => rw [hra] at hfa; exact absurd hfa (by simp)
        | some f =>
          exact processFrom_success args envs k fuel (a + 1) hlt (by omega)
            (fun j h1 h2 => hfail j (by omega) h2) hsucc

theorem processFrom_allFail (args : WorkerArgs) (envs : Nat → AttemptEnv) :
    ∀ fuel a, (∀ j, a ≤ j → j < a + fuel → (runAttempt args (envs j)).isSome) →
      processFrom args envs fuel a = ItemResult.permanentFailure (a + fuel - 1)
  | 0, a, _ => by simp [processFrom]
  | fuel + 1, a, hfail => by
      have hfa := hfail a (Nat.le_refl a) (by omega)
      rw [processFrom]
      cases hra : runAttempt args (envs a) with
      | none => rw [hra] at hfa; exact absurd hfa (by simp)
      | some f =>
        show processFrom args envs fuel (a + 1) = ItemResult.permanentFailure (a + (fuel + 1) - 1)
        rw [processFrom_allFail args envs fuel (a + 1)
          (fun j h1 h2 => hfail j (by omega) (by omega))]
        congr 1
        omega

/-- C2: in the worker's sequential loop each retry attempt re-runs the enabled
stages from stage 1 (each attempt `j` is a fresh full `runAttempt` on that
attempt's environment).  First part: if attempts `1..k-1` fail and attempt `k`
succeeds with `k ≤ MAX_RETRIES`, the item ends as `success k` — exactly `k`
attempts — and the row loop continues with the next rows after incrementing
only the successful tally.  Second part: if every attempt fails, the item ends
as `permanentFailure MAX_RETRIES` — exactly `MAX_RETRIES` attempts executed —
and the row loop continues with the next rows after incrementing only the
failed tally; no exception escapes the loop in either case. -/
theorem claim2_retry_loop :
    (∀ (args : WorkerArgs) (renderExists : Int → Bool) (envOf : Int → Nat → AttemptEnv)
      (row : Row) (rest : List Row) (acc : Summary) (pid : Int) (k : Nat),
      row.ID = some pid →
      startSkip args pid = false → endSkip args pid = false →
      (args.skip_existing && renderExists pid) = false →
      1 ≤ k → k ≤ MAX_RETRIES →
      (∀ j, 1 ≤ j → j < k → (runAttempt args (envOf pid j)).isSome) →
      runAttempt args (envOf pid k) = none →
      processItem args (envOf pid) = ItemResult.success k ∧
      workerLoop args renderExists envOf (row :: rest) acc
        = workerLoop args renderExists envOf rest
            { acc with successful := acc.successful + 1 }) ∧
    (∀ (args : WorkerArgs) (renderExists : Int → Bool) (envOf : Int → Nat → AttemptEnv)
      (row : Row) (rest : List Row) (acc : Summary) (pid : Int),
      row.ID = some pid →
      startSkip args pid = false → endSkip args pid = false →
      (args.skip_existing && renderExists pid) = false →
      (∀ j, 1 ≤ j → j ≤ MAX_RETRIES → (runAttempt args (envOf pid j)).isSome) →
      processItem args (envOf pid) = ItemResult.permanentFailure MAX_RETRIES ∧
      workerLoop args renderExists envOf (row :: rest) acc
        = workerLoop args renderExists envOf rest
            { acc with failed := acc.failed + 1 }) := by
  constructor
  · intro args renderExists envOf row rest acc pid k hid hs he hx hk1 hk2 hfail hsucc
    have hres : processItem args (envOf pid) = ItemResult.success k :=
      processFrom_success args (envOf pid) k MAX_RETRIES 1 hk1
        (by have h10 : MAX_RETRIES = 10 := rfl
            omega) hfail hsucc
    refine ⟨hres, ?_⟩
    rw [workerLoop, hid]
    simp only [hs, he, hx, Bool.false_eq_true, if_false, hres]
  · intro args renderExists envOf row rest acc pid hid hs he hx hfail
    have hres : processItem args (envOf pid) = ItemResult.permanentFailure MAX_RETRIES := by
      rw [processItem, processFrom_allFail args (envOf pid) MAX_RETRIES 1
        (fun j h1 h2 => hfail j h1 (by have h10 : MAX_RETRIES = 10 := rfl
                                       omega))]
      rfl
    refine ⟨hres, ?_⟩
    rw [workerLoop, hid]
    simp only [hs, he, hx, Bool.false_eq_true, if_false, hres]

/-- Environment in which every stage succeeds and the artifact appears. -/
def envAllOk : AttemptEnv :=
  { genOk := true, retrieveOk := true, blenderOk := true, renderExists := true }

/-- Environment in which `generate_scene` raises. -/
def envGenFails : AttemptEnv :=
  { genOk := false, retrieveOk := true, blenderOk := true, renderExists := true }

/-- Worker arguments with no range bounds and no skips. -/
def argsPlain : WorkerArgs :=
  { start_id := none, end_id := none,
    skip_existing := false, skip_retrieve := false, skip_render := false }

/-- Witness for C2, success part: an item whose first two attempts fail and
whose third succeeds ends as `success 3` with the successful tally bumped;
failure part: an item that fails on every attempt ends as
`permanentFailure 10` with the failed tally bumped and the loop moving on. -/
theorem claim2_witness :
    (processItem argsPlain (fun j => if j < 3 then envGenFails else envAllOk)
        = ItemResult.success 3 ∧
      workerLoop argsPlain (fun _ => false)
          (fun _ j => if j < 3 then envGenFails else envAllOk)
          [{ ID := some 7, Description := "A" }] { successful := 0, failed := 0, skipped := 0 }
        = workerLoop argsPlain (fun _ => false)
            (fun _ j => if j < 3 then envGenFails else envAllOk)
            [] { successful := 1, failed := 0, skipped := 0 }) ∧
    (processItem argsPlain (fun _ => envGenFails)
        = ItemResult.permanentFailure MAX_RETRIES ∧
      workerLoop argsPlain (fun _ => false) (fun _ _ => envGenFails)
          [{ ID := some 7, Description := "A" }] { successful := 0, failed := 0, skipped := 0 }
        = workerLoop argsPlain (fun _ => false) (fun _ _ => envGenFails)
            [] { successful := 0, failed := 1, skipped := 0 }) := by
  constructor
  · exact claim2_retry_loop.1 argsPlain (fun _ => false)
      (fun _ j => if j < 3 then envGenFails else envAllOk)
      { ID := some 7, Description := "A" } [] { successful := 0, failed := 0, skipped := 0 }
      7 3 rfl rfl rfl rfl (by omega) (by decide)
      (by intro j h1 h2; interval_cases j <;> decide) (by decide)
  · exact claim2_retry_loop.2 argsPlain (fun _ => false) (fun _ _ => envGenFails)
      { ID := some 7, Description := "A" } [] { successful := 0, failed := 0, skipped := 0 }
      7 rfl rfl rfl rfl
      (by intro j h1 h2
          exact (by decide : (runAttempt argsPlain envGenFails).isSome = true))

/-! ## C3, C4: command-line surface and exit codes -/

/-- C3 (code bug): the supervisor always puts `--timeout` on every worker
command line, but the worker's argument parser registers no `--timeout`
option, so argparse rejects the command line the supervisor builds (the
worker process dies with an argparse error before reading the catalog), and
none of the worker's `subprocess.run` stage invocations passes a timeout.
This contradicts the supervisor's own intent of forwarding a per-attempt
timeout to the worker. -/
theorem claim3_timeout_flag_rejected (sup : SupervisorArgs) :
    ("--timeout" : String) ∈ worker_cmd_flags sup ∧
    ("--timeout" : String) ∉ run_from_csv_option_strings ∧
    argparse_accepts run_from_csv_option_strings (worker_cmd_flags sup) = false := by
  have hmem : ("--timeout" : String) ∈ worker_cmd_flags sup := by
    rw [worker_cmd_flags]
    exact List.mem_append_left _ (List.mem_append_left _ (List.mem_append_left _ (by decide)))
  refine ⟨hmem, by decide, ?_⟩
  rw [argparse_accepts]
  rw [List.all_eq_false]
  exact ⟨"--timeout", hmem, by decide⟩

/-- C4 (amended): the supervisor's `main` exits 0 whatever the worker
returncodes were — worker crashes show up only in the printed summary — and
a worker whose row loop runs to completion exits 0 even when some of its
items ended in permanent failure. -/
theorem claim4_exit_codes :
    (∀ workerReturncodes : List Int, multiworker_exit_code workerReturncodes = 0) ∧
    (∀ (args : WorkerArgs) (renderExists : Int → Bool) (envOf : Int → Nat → AttemptEnv)
      (rows : List Row) (s : Summary),
      run_from_csv_main args renderExists envOf rows = Except.ok s →
      worker_exit_code (run_from_csv_main args renderExists envOf rows) = 0) := by
  constructor
  · intro rets
    rfl
  · intro args renderExists envOf rows s h
    rw [h]
    rfl

/-- Counterexample to C4 as stated: a run whose only worker crashed with exit
code 2 still makes the orchestrator exit 0, so a worker exiting nonzero does
not make the orchestrator's exit code nonzero. -/
theorem claim4_counterexample : multiworker_exit_code [2] = 0 := rfl

/-- Witness for C4: a worker whose single item fails all `MAX_RETRIES`
attempts (so its summary is one permanent failure) still exits 0. -/
theorem claim4_witness :
    worker_exit_code (run_from_csv_main argsPlain (fun _ => false) (fun _ _ => envGenFails)
      [{ ID := some 7, Description := "A" }]) = 0 :=
  claim4_exit_codes.2 argsPlain (fun _ => false) (fun _ _ => envGenFails)
    [{ ID := some 7, Description := "A" }]
    { successful := 0, failed := 1, skipped := 0 } rfl

/-! ## C6: cancellation -/

/-- C6: the `KeyboardInterrupt` handler sends a termination request to every
spawned worker and performs a blocking `wait` on every spawned worker, and
after it runs, every worker process has exited — no worker is left alive or
orphaned (the process count is preserved; none is dropped unreaped). -/
theorem claim6_cancellation (procs : List ProcState) :
    ((interrupt_handler procs).2.length = procs.length) ∧
    (∀ i, i < procs.length →
      SupAction.sentTerminate i ∈ (interrupt_handler procs).1 ∧
      SupAction.waited i ∈ (interrupt_handler procs).1) ∧
    (∀ q ∈ (interrupt_handler procs).2, q = ProcState.exited) := by
  refine ⟨by simp [interrupt_handler], ?_, ?_⟩
  · intro i hi
    constructor
    · exact List.mem_append_left _ (List.mem_map_of_mem _ (List.mem_range.mpr hi))
    · exact List.mem_append_right _ (List.mem_map_of_mem _ (List.mem_range.mpr hi))
  · intro q hq
    rw [interrupt_handler] at hq
    simp only [List.map_map, List.mem_map] at hq
    obtain ⟨p, _, hp⟩ := hq
    rw [← hp]
    rfl

/-- Witness for C6: interrupting a run with one live and one already-exited
worker leaves both exited, with both termination requests and both waits on
record. -/
theorem claim6_witness :
    ((interrupt_handler [ProcState.running, ProcState.exited]).2.length = 2) ∧
    (SupAction.sentTerminate 0 ∈ (interrupt_handler [ProcState.running, ProcState.exited]).1 ∧
      SupAction.waited 0 ∈ (interrupt_handler [ProcState.running, ProcState.exited]).1) ∧
    (∀ q ∈ (interrupt_handler [ProcState.running, ProcState.exited]).2,
      q = ProcState.exited) := by
  have h := claim6_cancellation [ProcState.running, ProcState.exited]
  exact ⟨h.1, h.2.1 0 (by decide), h.2.2⟩

/-! ## C7: the terminal-artifact success predicate -/

/-- C7: with the render stage enabled, an attempt in which every stage
process reports success but `render.png` does not exist afterwards fails with
the missing-artifact error, and such an attempt consumes exactly one attempt
of the retry budget (the loop moves on to the next attempt with one unit of
fuel burnt); with the render stage disabled, the attempt's outcome ignores
the artifact oracle entirely, and an attempt whose earlier stages pass
succeeds with no artifact-existence check. -/
theorem claim7_missing_artifact :
    (∀ (args : WorkerArgs) (env : AttemptEnv),
      args.skip_render = false → env.genOk = true → env.retrieveOk = true →
      env.blenderOk = true → env.renderExists = false →
      runAttempt args env = some AttemptFailure.missingArtifact) ∧
    (∀ (args : WorkerArgs) (envs : Nat → AttemptEnv) (fuel a : Nat),
      args.skip_render = false → (envs a).genOk = true → (envs a).retrieveOk = true →
      (envs a).blenderOk = true → (envs a).renderExists = false →
      processFrom args envs (fuel + 1) a = processFrom args envs fuel (a + 1)) ∧
    (∀ (args : WorkerArgs) (env : AttemptEnv) (b1 b2 : Bool),
      args.skip_render = true →
      runAttempt args { env with renderExists := b1 }
        = runAttempt args { env with renderExists := b2 }) ∧
    (∀ (args : WorkerArgs) (env : AttemptEnv),
      args.skip_render = true → env.genOk = true →
      (args.skip_retrieve = true ∨ env.retrieveOk = true) →
      runAttempt args env = none) := by
  have hfail : ∀ (args : WorkerArgs) (env : AttemptEnv),
      args.skip_render = false → env.genOk = true → env.retrieveOk = true →
      env.blenderOk = true → env.renderExists = false →
      runAttempt args env = some AttemptFailure.missingArtifact := by
    intro args env h1 h2 h3 h4 h5
    rw [runAttempt, runAttemptFull]
    by_cases h6 : args.skip_retrieve <;>
      simp [h2, h3, h6, renderStage, h1, h4, h5]
  refine ⟨hfail, ?_, ?_, ?_⟩
  · intro args envs fuel a h1 h2 h3 h4 h5
    rw [processFrom, hfail args (envs a) h1 h2 h3 h4 h5]
  · intro args env b1 b2 h1
    rw [runAttempt, runAttempt, runAttemptFull, runAttemptFull]
    by_cases h2 : env.genOk <;> by_cases h3 : args.skip_retrieve <;>
      by_cases h4 : env.retrieveOk <;>
      simp [h2, h3, h4, renderStage, h1]
  · intro args env h1 h2 h3
    rw [runAttempt, runAttemptFull]
    rcases h3 with h3 | h3 <;>
      by_cases h4 : args.skip_retrieve <;>
      simp_all [renderStage]

/-- Environment in which every stage process succeeds but the terminal
artifact never appears. -/
def envNoArtifact : AttemptEnv :=
  { genOk := true, retrieveOk := true, blenderOk := true, renderExists := false }

/-- Witness for C7: with the render stage enabled, all-green stages without
an artifact yield the missing-artifact failure and burn one attempt; with the
render stage disabled, the same environment succeeds, independently of the
artifact oracle. -/
theorem claim7_witness :
    runAttempt argsPlain envNoArtifact = some AttemptFailure.missingArtifact ∧
    processFrom argsPlain (fun _ => envNoArtifact) 3 1
      = processFrom argsPlain (fun _ => envNoArtifact) 2 2 ∧
    runAttempt { argsPlain with skip_render := true }
        { envNoArtifact with renderExists := false }
      = runAttempt { argsPlain with skip_render := true }
        { envNoArtifact with renderExists := true } ∧
    runAttempt { argsPlain with skip_render := true } envNoArtifact = none :=
  ⟨claim7_missing_artifact.1 argsPlain envNoArtifact rfl rfl rfl rfl rfl,
    claim7_missing_artifact.2.1 argsPlain (fun _ => envNoArtifact) 2 1 rfl rfl rfl rfl rfl,
    claim7_missing_artifact.2.2.1 { argsPlain with skip_render := true } envNoArtifact
      false true rfl,
    claim7_missing_artifact.2.2.2 { argsPlain with skip_render := true } envNoArtifact
      rfl rfl (Or.inr rfl)⟩

/-! ## C8: skip-existing idempotency -/

/-- C8: with `skip_existing=true`, (a) the supervisor's pre-partition filter
excludes every scene whose `render.png` already exists; (b) that filter is a
sublist of the input, so it preserves the order of the remaining items, and
its members are exactly the input IDs without an artifact; (c) a row whose ID
has an existing artifact produces zero stage invocations in any worker (its
stage trace is empty whatever the worker's range bounds are); (d) a worker
actually reaching such a row skips it, bumping only the skipped tally. -/
theorem claim8_skip_existing :
    (∀ (scene_ids : List Int) (renderExists : Int → Bool) (id : Int),
      renderExists id = true → id ∉ filter_incomplete_scenes scene_ids renderExists) ∧
    (∀ (scene_ids : List Int) (renderExists : Int → Bool),
      List.Sublist (filter_incomplete_scenes scene_ids renderExists) scene_ids) ∧
    (∀ (scene_ids : List Int) (renderExists : Int → Bool) (id : Int),
      id ∈ filter_incomplete_scenes scene_ids renderExists
        ↔ id ∈ scene_ids ∧ renderExists id = false) ∧
    (∀ (args : WorkerArgs) (renderExists : Int → Bool) (envOf : Int → Nat → AttemptEnv)
      (row : Row) (pid : Int),
      args.skip_existing = true → row.ID = some pid → renderExists pid = true →
      rowTrace args renderExists envOf row = []) ∧
    (∀ (args : WorkerArgs) (renderExists : Int → Bool) (envOf : Int → Nat → AttemptEnv)
      (row : Row) (rest : List Row) (acc : Summary) (pid : Int),
      args.skip_existing = true → row.ID = some pid → renderExists pid = true →
      startSkip args pid = false → endSkip args pid = false →
      workerLoop args renderExists envOf (row :: rest) acc
        = workerLoop args renderExists envOf rest
            { acc with skipped := acc.skipped + 1 }) := by
  refine ⟨?_, ?_, ?_, ?_, ?_⟩
  · intro scene_ids renderExists id hex hmem
    rw [filter_incomplete_scenes] at hmem
    have := (List.mem_filter.mp hmem).2
    rw [hex] at this
    exact absurd this (by decide)
  · intro scene_ids renderExists
    exact List.filter_sublist scene_ids
  · intro scene_ids renderExists id
    rw [filter_incomplete_scenes, List.mem_filter]
    constructor
    · rintro ⟨h1, h2⟩
      refine ⟨h1, ?_⟩
      cases h : renderExists id
      · rfl
      · rw [h] at h2; exact absurd h2 (by decide)
    · rintro ⟨h1, h2⟩
      exact ⟨h1, by rw [h2]; rfl⟩
  · intro args renderExists envOf row pid hsk hid hex
    rw [rowTrace, hid]
    by_cases hs : startSkip args pid
    · simp [hs]
    · by_cases he : endSkip args pid
      · simp [hs, he]
      · simp [hs, he, hsk, hex]
  · intro args renderExists envOf row rest acc pid hsk hid hex hs he
    rw [workerLoop, hid]
    simp [hs, he, hsk, hex]

/-- Witness for C8: with an artifact present for scene 5, the supervisor's
filter drops 5 (keeping 4 and 6 in order), and a worker with
`skip_existing` reaching row 5 makes zero stage invocations and counts it
as skipped. -/
theorem claim8_witness :
    ((5 : Int) ∉ filter_incomplete_scenes [4, 5, 6] (fun id => id = 5)) ∧
    List.Sublist (filter_incomplete_scenes [4, 5, 6] (fun id => id = 5)) [4, 5, 6] ∧
    ((4 : Int) ∈ filter_incomplete_scenes [4, 5, 6] (fun id => id = 5)
      ↔ (4 : Int) ∈ ([4, 5, 6] : List Int) ∧ ((4 : Int) = 5 : Bool) = false) ∧
    (rowTrace { argsPlain with skip_existing := true } (fun id => id = 5)
        (fun _ _ => envAllOk) { ID := some 5, Description := "E" } = [] ∧
      workerLoop { argsPlain with skip_existing := true } (fun id => id = 5)
          (fun _ _ => envAllOk) [{ ID := some 5, Description := "E" }]
          { successful := 0, failed := 0, skipped := 0 }
        = workerLoop { argsPlain with skip_existing := true } (fun id => id = 5)
            (fun _ _ => envAllOk) [] { successful := 0, failed := 0, skipped := 1 }) :=
  ⟨claim8_skip_existing.1 [4, 5, 6] (fun id => id = 5) 5 (by decide),
    claim8_skip_existing.2.1 [4, 5, 6] (fun id => id = 5),
    claim8_skip_existing.2.2.1 [4, 5, 6] (fun id => id = 5) 4,
    claim8_skip_existing.2.2.2.1 { argsPlain with skip_existing := true } (fun id => id = 5)
      (fun _ _ => envAllOk) { ID := some 5, Description := "E" } 5
      rfl rfl (by decide),
    claim8_skip_existing.2.2.2.2 { argsPlain with skip_existing := true } (fun id => id = 5)
      (fun _ _ => envAllOk) { ID := some 5, Description := "E" } [] ⟨0, 0, 0⟩ 5
      rfl rfl (by decide) rfl rfl⟩

/-! ## C10: unparseable catalog IDs crash the worker -/

theorem workerLoop_error_of_bad_row (args : WorkerArgs) (renderExists : Int → Bool)
    (envOf : Int → Nat → AttemptEnv) :
    ∀ (rows : List Row) (acc : Summary) (row : Row), row ∈ rows → row.ID = none →
      ∃ e, workerLoop args renderExists envOf rows acc = Except.error e
  | [], _, _, hmem, _ => absurd hmem (List.not_mem_nil _)
  | r :: rest, acc, row, hmem, hid => by
      obtain ⟨rid, rdesc⟩ := r
      cases rid with
      | none => exact ⟨_, by rw [workerLoop]⟩
      | some pid =>
        have hrow : row ∈ rest := by
          rcases List.mem_cons.mp hmem with heq | h
          · rw [heq] at hid
            exact absurd hid (by simp)
          · exact h
        rw [workerLoop]
        by_cases hs : startSkip args pid
        · simp only [hs, if_true]
          exact workerLoop_error_of_bad_row args renderExists envOf rest _ row hrow hid
        · by_cases he : endSkip args pid
          · simp only [hs, he, Bool.false_eq_true, if_false, if_true]
            exact workerLoop_error_of_bad_row args renderExists envOf rest _ row hrow hid
          · by_cases hx : args.skip_existing && renderExists pid
            · simp only [hs, he, hx, Bool.false_eq_true, if_false, if_true]
              exact workerLoop_error_of_bad_row args renderExists envOf rest _ row hrow hid
            · simp only [hs, he, hx, Bool.false_eq_true, if_false]
              cases processItem args (envOf pid) with
              | success a =>
                exact workerLoop_error_of_bad_row args renderExists envOf rest _ row hrow hid
              | permanentFailure a =>
                exact workerLoop_error_of_bad_row args renderExists envOf rest _ row hrow hid

/-- C10: if any catalog row's ID field does not parse as an integer, the
worker run crashes with an uncaught exception (nonzero exit code) once that
row is reached — the per-item try/except never covers the conversion, and
the conversion happens before the range filter, so the bounds in `args` are
irrelevant (the statement quantifies over arbitrary `args`, hence over rows
outside the worker's range as well). -/
theorem claim10_unparseable_id_crashes (args : WorkerArgs) (renderExists : Int → Bool)
    (envOf : Int → Nat → AttemptEnv) (rows : List Row) (row : Row)
    (hmem : row ∈ rows) (hid : row.ID = none) :
    (∃ e, run_from_csv_main args renderExists envOf rows = Except.error e) ∧
    worker_exit_code (run_from_csv_main args renderExists envOf rows) ≠ 0 := by
  obtain ⟨e, he⟩ := workerLoop_error_of_bad_row args renderExists envOf rows
    { successful := 0, failed := 0, skipped := 0 } row hmem hid
  rw [run_from_csv_main]
  rw [he]
  exact ⟨⟨e, rfl⟩, by rw [worker_exit_code]; decide⟩

/-- Witness for C10: a worker restricted to IDs 1..2 still crashes on a
malformed third row whose raw ID text does not parse, even though row 3 would
have been outside the worker's range. -/
theorem claim10_witness :
    (∃ e, run_from_csv_main { argsPlain with start_id := some 1, end_id := some 2 }
        (fun _ => false) (fun _ _ => envAllOk)
        [{ ID := some 1, Description := "A" }, { ID := some 2, Description := "B" },
          { ID := none, Description := "C" }]
      = Except.error e) ∧
    worker_exit_code (run_from_csv_main { argsPlain with start_id := some 1, end_id := some 2 }
        (fun _ => false) (fun _ _ => envAllOk)
        [{ ID := some 1, Description := "A" }, { ID := some 2, Description := "B" },
          { ID := none, Description := "C" }]) ≠ 0 :=
  claim10_unparseable_id_crashes { argsPlain with start_id := some 1, end_id := some 2 }
    (fun _ => false) (fun _ _ => envAllOk)
    [{ ID := some 1, Description := "A" }, { ID := some 2, Description := "B" },
      { ID := none, Description := "C" }]
    { ID := none, Description := "C" } (by simp) rfl

/-! ## C9: the three-item, two-worker end-to-end scenario -/

/-- The catalog of the end-to-end scenario, as rows. -/
def catalogC9 : List Row :=
  [{ ID := some 1, Description := "A" }, { ID := some 2, Description := "B" },
    { ID := some 3, Description := "C" }]

/-- Supervisor arguments of the end-to-end scenario: two workers, no range
bounds, no skips, default timeout. -/
def supC9 : SupervisorArgs :=
  { start_id := none, end_id := none, skip_existing := false,
    skip_retrieve := false, skip_render := false, num_workers := 2, timeout := 3600 }

/-- Counterexample to C9 as stated: in the three-item, two-worker scenario
with every stage succeeding on attempt 1, worker 0 (IDs 1-2) ends with
summary `{successful := 2, failed := 0, skipped := 1}` and worker 1 (ID 3)
with `{successful := 1, failed := 0, skipped := 2}` — each worker counts the
rows outside its own ID range as skipped — so no summary of the run reads
`skipped = 0`: the aggregate is `successful = 3, failed = 0, skipped = 3`. -/
theorem claim9_counterexample :
    run_from_csv_main (worker_args_for_chunk supC9 [1, 2]) (fun _ => false)
        (fun _ _ => envAllOk) catalogC9
      = Except.ok { successful := 2, failed := 0, skipped := 1 } ∧
    run_from_csv_main (worker_args_for_chunk supC9 [3]) (fun _ => false)
        (fun _ _ => envAllOk) catalogC9
      = Except.ok { successful := 1, failed := 0, skipped := 2 } ∧
    ¬ run_from_csv_main (worker_args_for_chunk supC9 [1, 2]) (fun _ => false)
        (fun _ _ => envAllOk) catalogC9
      = Except.ok { successful := 2, failed := 0, skipped := 0 } ∧
    (1 + 2 : Nat) ≠ 0 :=
  ⟨rfl, rfl,
    by
      intro h
      have h1 : run_from_csv_main (worker_args_for_chunk supC9 [1, 2]) (fun _ => false)
          (fun _ _ => envAllOk) catalogC9
        = Except.ok { successful := 2, failed := 0, skipped := 1 } := rfl
      rw [h1] at h
      exact absurd (Except.ok.inj h) (by decide),
    by decide⟩

/-- C9 (amended): in the end-to-end scenario the partitions are `[1, 2]` for
worker 0 and `[3]` for worker 1, the supervisor hands worker 0 the range
1..2 and worker 1 the range 3..3, and with all three stages passing on
attempt 1 the workers end with summaries
`{successful := 2, failed := 0, skipped := 1}` and
`{successful := 1, failed := 0, skipped := 2}`: across the run 3 items
succeed and none fails, but the skipped tallies total 3 (each worker counts
the other worker's rows as skipped), not 0. -/
theorem claim9_end_to_end :
    divide_work (get_scene_ids [1, 2, 3] none none) 2 = [[1, 2], [3]] ∧
    worker_args_for_chunk supC9 [1, 2]
      = { start_id := some 1, end_id := some 2, skip_existing := false,
          skip_retrieve := false, skip_render := false } ∧
    worker_args_for_chunk supC9 [3]
      = { start_id := some 3, end_id := some 3, skip_existing := false,
          skip_retrieve := false, skip_render := false } ∧
    run_from_csv_main (worker_args_for_chunk supC9 [1, 2]) (fun _ => false)
        (fun _ _ => envAllOk) catalogC9
      = Except.ok { successful := 2, failed := 0, skipped := 1 } ∧
    run_from_csv_main (worker_args_for_chunk supC9 [3]) (fun _ => false)
        (fun _ _ => envAllOk) catalogC9
      = Except.ok { successful := 1, failed := 0, skipped := 2 } ∧
    (2 + 1 : Nat) = 3 ∧ (0 + 0 : Nat) = 0 ∧ (1 + 2 : Nat) = 3 :=
  ⟨by decide, rfl, rfl, rfl, rfl, rfl, rfl, rfl⟩

/-! ## C5: disjointness of the per-worker ID ranges -/

theorem mem_get_scene_ids (ids : List Int) (s e : Option Int) (x : Int) :
    x ∈ get_scene_ids ids s e
      ↔ x ∈ ids ∧ (∀ s0, s = some s0 → s0 ≤ x) ∧ (∀ e0, e = some e0 → x ≤ e0) := by
  unfold get_scene_ids
  cases s <;> cases e <;>
    first
      | (simp [(List.perm_insertionSort _ _).mem_iff, List.mem_filter]; tauto)
      | simp [(List.perm_insertionSort _ _).mem_iff, List.mem_filter]

theorem get_scene_ids_sorted (ids : List Int) (s e : Option Int) :
    List.Sorted (· ≤ ·) (get_scene_ids ids s e) := by
  unfold get_scene_ids
  cases s <;> cases e <;> exact List.sorted_insertionSort _ _

theorem get_scene_ids_nodup (ids : List Int) (s e : Option Int) (h : ids.Nodup) :
    (get_scene_ids ids s e).Nodup := by
  unfold get_scene_ids
  cases s <;> cases e
  · exact (List.perm_insertionSort _ _).nodup_iff.mpr h
  · exact (List.perm_insertionSort _ _).nodup_iff.mpr (h.filter _)
  · exact (List.perm_insertionSort _ _).nodup_iff.mpr (h.filter _)
  · exact (List.perm_insertionSort _ _).nodup_iff.mpr ((h.filter _).filter _)

theorem get_scene_ids_strict (ids : List Int) (s e : Option Int) (h : ids.Nodup) :
    List.Pairwise (· < ·) (get_scene_ids ids s e) :=
  List.Pairwise.imp (fun hab => lt_of_le_of_ne hab.1 hab.2)
    ((get_scene_ids_sorted ids s e).and (get_scene_ids_nodup ids s e h))

theorem chunks_pairwise_lt (l : List Int) (w : Nat) (hw : 1 ≤ w)
    (hl : List.Pairwise (· < ·) l) :
    List.Pairwise (fun c1 c2 => ∀ x ∈ c1, ∀ y ∈ c2, x < y) (divide_work l w) := by
  have hflat : (divide_work l w).flatten = l := divide_work_flatten l w hw
  rw [← hflat] at hl
  exact (List.pairwise_flatten.mp hl).2

instance : Std.Antisymm (fun x1 x2 : Int => x1 ≤ x2) :=
  ⟨fun h1 h2 => le_antisymm h1 h2⟩

theorem int_min?_spec (c : List Int) (lo : Int) (h : c.min? = some lo) :
    lo ∈ c ∧ ∀ b ∈ c, lo ≤ b :=
  (List.min?_eq_some_iff (fun a => le_refl a) min_choice
    (fun _ _ _ => le_min_iff)).mp h

theorem int_max?_spec (c : List Int) (hi : Int) (h : c.max? = some hi) :
    hi ∈ c ∧ ∀ b ∈ c, b ≤ hi :=
  (List.max?_eq_some_iff (fun a => le_refl a) max_choice
    (fun _ _ _ => max_le_iff)).mp h

theorem min?_isSome_of_ne_nil (c : List Int) (h : c ≠ []) : ∃ lo, c.min? = some lo := by
  cases c with
  | nil => exact absurd rfl h
  | cons a t => exact ⟨_, rfl⟩

theorem max?_isSome_of_ne_nil (c : List Int) (h : c ≠ []) : ∃ hi, c.max? = some hi := by
  cases c with
  | nil => exact absurd rfl h
  | cons a t => exact ⟨_, rfl⟩

/-- The inclusive ID interval `[min(chunk), max(chunk)]` that the supervisor
hands to the worker spawned for a chunk (run_multiworker.py lines 216-217). -/
def inChunkRange (c : List Int) (x : Int) : Prop :=
  ∃ lo hi, c.min? = some lo ∧ c.max? = some hi ∧ lo ≤ x ∧ x ≤ hi

/-- C5: for a catalog with unique IDs and `workerCount ≥ 1`, with
`chunks` the partition of the sorted range-filtered ID list: (a) the
inclusive ID ranges `[min(chunk), max(chunk)]` handed to distinct workers
are pairwise disjoint — so no ID, hence no work item, is ever inside two
workers' assignments; (b) for every spawned (non-empty-chunk) worker, the
set of catalog IDs selected by that worker's own ID-range filter is exactly
its assigned chunk. -/
theorem claim5_disjoint_assignment (sup : SupervisorArgs) (catalogIds : List Int)
    (w : Nat) (chunks : List (List Int))
    (hnd : catalogIds.Nodup) (hw : 1 ≤ w)
    (hchunks : chunks = divide_work (get_scene_ids catalogIds sup.start_id sup.end_id) w) :
    (∀ i j (hbi : i < chunks.length) (hbj : j < chunks.length), i ≠ j →
      ∀ x : Int, inChunkRange chunks[i] x → ¬ inChunkRange chunks[j] x) ∧
    (∀ j (hbj : j < chunks.length), chunks[j] ≠ [] →
      ∀ x : Int, x ∈ worker_range_selected sup chunks[j] catalogIds ↔ x ∈ chunks[j]) := by
  obtain ⟨s, e, skex, skre, skrd, nw, tm⟩ := sup
  simp only [] at hchunks
  subst hchunks
  have hstrict : List.Pairwise (· < ·) (get_scene_ids catalogIds s e) :=
    get_scene_ids_strict catalogIds s e hnd
  have hpw := chunks_pairwise_lt (get_scene_ids catalogIds s e) w hw hstrict
  have hflat := divide_work_flatten (get_scene_ids catalogIds s e) w hw
  have hcross := List.pairwise_iff_getElem.mp hpw
  have hchunkmem : ∀ j (hbj : j < (divide_work (get_scene_ids catalogIds s e) w).length)
      (x : Int), x ∈ (divide_work (get_scene_ids catalogIds s e) w)[j] →
      x ∈ get_scene_ids catalogIds s e := by
    intro j hbj x hx
    rw [← hflat]
    exact List.mem_flatten.mpr ⟨_, List.getElem_mem hbj, hx⟩
  constructor
  · rintro i j hbi hbj hne x ⟨lo1, hi1, hlo1, hhi1, hxlo1, hxhi1⟩ ⟨lo2, hi2, hlo2, hhi2, hxlo2, hxhi2⟩
    rcases Nat.lt_or_ge i j with hij | hge
    · have hlt := hcross i j hbi hbj hij hi1 (int_max?_spec _ _ hhi1).1 lo2
        (int_min?_spec _ _ hlo2).1
      omega
    · have hij : j < i := by omega
      have hlt := hcross j i hbj hbi hij hi2 (int_max?_spec _ _ hhi2).1 lo1
        (int_min?_spec _ _ hlo1).1
      omega
  · intro j hbj hne x
    obtain ⟨lo, hlo⟩ := min?_isSome_of_ne_nil _ hne
    obtain ⟨hi, hhi⟩ := max?_isSome_of_ne_nil _ hne
    obtain ⟨hlomem, hlole⟩ := int_min?_spec _ _ hlo
    obtain ⟨himem, hile⟩ := int_max?_spec _ _ hhi
    have hkeep : ∀ y : Int,
        keepsRange (worker_args_for_chunk
          { start_id := s, end_id := e, skip_existing := skex, skip_retrieve := skre,
            skip_render := skrd, num_workers := nw, timeout := tm }
          ((divide_work (get_scene_ids catalogIds s e) w)[j])) y = true
          ↔ lo ≤ y ∧ y ≤ hi := by
      intro y
      rw [keepsRange, startSkip, endSkip, worker_args_for_chunk]
      simp only [hlo, hhi]
      simp only [Bool.and_eq_true, Bool.not_eq_true']
      constructor
      · rintro ⟨h1, h2⟩
        constructor
        · simpa using h1
        · simpa using h2
      · rintro ⟨h1, h2⟩
        constructor
        · simpa using h1
        · simpa using h2
    constructor
    · intro hx
      rw [worker_range_selected, List.mem_filter] at hx
      obtain ⟨hxcat, hxkeep⟩ := hx
      obtain ⟨hxlo, hxhi⟩ := (hkeep x).mp hxkeep
      have hloids : lo ∈ get_scene_ids catalogIds s e := hchunkmem j hbj lo hlomem
      have hiids : hi ∈ get_scene_ids catalogIds s e := hchunkmem j hbj hi himem
      have hxids : x ∈ get_scene_ids catalogIds s e := by
        rw [mem_get_scene_ids]
        refine ⟨hxcat, ?_, ?_⟩
        · intro s0 hs0
          have hs0lo := ((mem_get_scene_ids catalogIds s e lo).mp hloids).2.1 s0 hs0
          omega
        · intro e0 he0
          have hhie0 := ((mem_get_scene_ids catalogIds s e hi).mp hiids).2.2 e0 he0
          omega
      have hxflat : x ∈ (divide_work (get_scene_ids catalogIds s e) w).flatten := by
        rw [hflat]; exact hxids
      obtain ⟨c, hcmem, hxc⟩ := List.mem_flatten.mp hxflat
      obtain ⟨m, hbm, rfl⟩ := List.mem_iff_getElem.mp hcmem
      rcases lt_trichotomy m j with hmj | rfl | hjm
      · have := hcross m j hbm hbj hmj x hxc lo hlomem
        omega
      · exact hxc
      · have := hcross j m hbj hbm hjm hi himem x hxc
        omega
    · intro hxc
      rw [worker_range_selected, List.mem_filter]
      have hxids := hchunkmem j hbj x hxc
      refine ⟨((mem_get_scene_ids catalogIds s e x).mp hxids).1, ?_⟩
      exact (hkeep x).mpr ⟨hlole x hxc, hile x hxc⟩

/-- Witness for C5: catalog `[3, 1, 2]` (unique IDs), two workers: the chunks
of the sorted list `[1, 2, 3]` are `[1, 2]` and `[3]`, their handed ranges
1..2 and 3..3 do not overlap at ID 2, and worker 0's own range filter over
the catalog selects exactly its chunk (here checked at ID 2 and at ID 3). -/
theorem claim5_witness :
    (¬ inChunkRange ((divide_work (get_scene_ids [3, 1, 2] none none) 2).get ⟨1, by decide⟩) 2) ∧
    ((2 : Int) ∈ worker_range_selected supC9
        ((divide_work (get_scene_ids [3, 1, 2] none none) 2).get ⟨0, by decide⟩) [3, 1, 2]
      ↔ (2 : Int) ∈ (divide_work (get_scene_ids [3, 1, 2] none none) 2).get ⟨0, by decide⟩) ∧
    ((3 : Int) ∈ worker_range_selected supC9
        ((divide_work (get_scene_ids [3, 1, 2] none none) 2).get ⟨0, by decide⟩) [3, 1, 2]
      ↔ (3 : Int) ∈ (divide_work (get_scene_ids [3, 1, 2] none none) 2).get ⟨0, by decide⟩) := by
  have h := claim5_disjoint_assignment supC9 [3, 1, 2] 2
    (divide_work (get_scene_ids [3, 1, 2] none none) 2) (by decide) (by decide) rfl
  have hrange : inChunkRange
      ((divide_work (get_scene_ids [3, 1, 2] none none) 2).get ⟨0, by decide⟩) 2 := by
    refine ⟨1, 2, by decide, by decide, by decide, by decide⟩
  exact ⟨h.1 0 1 (by decide) (by decide) (by decide) 2 hrange,
    h.2 0 (by decide) (by decide) 2,
    h.2 0 (by decide) (by decide) 3⟩

end IDesign
